import Mathlib

/-!
Verification of the cost-aware model routing and task-dispatch subsystem of
the nova repository: a shallow embedding of the data model (src/src/models/ai.py)
and of the router, budget ledger, classifier and dispatcher
(src/src/ai/reasoning_engine.py), with theorems settling the specification
claims about them. Monetary amounts are modelled as rationals, Python dicts as
insertion-ordered association lists, raised exceptions as Except.error values,
and the external collaborators (the Ollama HTTP endpoint, the environment
variables, the tokenizer, wall-clock time) as an explicit environment record.
-/

namespace Nova

/-- Task complexity levels for routing (src/models/ai.py, TaskComplexity). -/
inductive TaskComplexity where
  | SIMPLE
  | MEDIUM
  | COMPLEX
  | CRITICAL
deriving DecidableEq, Repr

/-- Types of models (src/models/ai.py, ModelType). -/
inductive ModelType where
  | LOCAL
  | FREE_API
  | PREMIUM_API
deriving DecidableEq, Repr

/-- AI model information (src/models/ai.py, Model). -/
structure Model where
  name : String
  type : ModelType
  size_gb : Option ℚ
  context_window : ℕ
  capabilities : List String
  cost_per_1k_tokens : ℚ
  speed_score : ℤ
  quality_score : ℤ
deriving DecidableEq, Repr

/-- Model.is_local property. -/
def Model.is_local (m : Model) : Bool := decide (m.type = ModelType.LOCAL)

/-- Model.is_free property: cost_per_1k_tokens == 0. -/
def Model.is_free (m : Model) : Bool := decide (m.cost_per_1k_tokens = 0)

/-- Task to be processed by AI (src/models/ai.py, Task). The context dict is
modelled as an association list from keys to rendered string values; the
timestamp field is consulted by no routing or dispatch code and is omitted. -/
structure Task where
  content : String
  complexity : TaskComplexity
  context : List (String × String) := []
  requires_code_gen : Bool := false
  requires_web_access : Bool := false
  max_tokens : Option ℕ := none
deriving DecidableEq, Repr

/-- Action to be performed based on AI response (src/models/ai.py, Action). -/
structure Action where
  type : String
  target : String
  params : List (String × String)
deriving DecidableEq, Repr

/-- Response from AI processing (src/models/ai.py, AIResponse). -/
structure AIResponse where
  content : String
  actions : List Action
  reasoning : String
  model_used : String
  confidence : ℚ
  fallback_used : Bool
  tokens_used : ℕ
  cost : ℚ
  processing_time : ℚ
deriving DecidableEq, Repr

/-- AIResponse.success property: confidence > 0.7. -/
def AIResponse.success (r : AIResponse) : Bool := decide ((7 : ℚ) / 10 < r.confidence)

/-- Track costs for the month (src/models/ai.py, CostTracking). -/
structure CostTracking where
  month : String
  total_cost : ℚ
  cost_by_model : List (String × ℚ)
  tokens_by_model : List (String × ℕ)
  budget_limit : ℚ
deriving DecidableEq, Repr

/-- CostTracking.remaining_budget property: max(0, budget_limit - total_cost). -/
def CostTracking.remaining_budget (ct : CostTracking) : ℚ :=
  max 0 (ct.budget_limit - ct.total_cost)

/-- Dict key-membership test, the Python "k in d". -/
def hasKey {α : Type} (l : List (String × α)) (k : String) : Bool :=
  l.any (fun p => decide (p.1 = k))

/-- Dict write "d[k] = v": overwrite in place when the key exists, else append
at the end (Python dicts preserve insertion order). -/
def setKey {α : Type} (l : List (String × α)) (k : String) (v : α) : List (String × α) :=
  if hasKey l k then l.map (fun p => if p.1 = k then (p.1, v) else p) else l ++ [(k, v)]

/-- Dict increment "d[k] += v" for a present key. -/
def bumpKey {α : Type} [Add α] (l : List (String × α)) (k : String) (v : α) : List (String × α) :=
  l.map (fun p => if p.1 = k then (p.1, p.2 + v) else p)

/-- Dict key lookup "d.get(k)": the value at the first matching key. -/
def lookupKey {α : Type} : List (String × α) → String → Option α
  | [], _ => none
  | p :: rest, k => if p.1 = k then some p.2 else lookupKey rest k

/-- The keys of a dict, in insertion order. -/
def keysOf {α : Type} (l : List (String × α)) : List String := l.map Prod.fst

/-- Sum of a cost dict's values, the Python "sum(d.values())". -/
def sumVals (l : List (String × ℚ)) : ℚ := (l.map Prod.snd).sum

/-- CostOptimizedRouter.track_usage (src/ai/reasoning_engine.py lines 149-160).
The method runs at some wall-clock moment, passed here as now_month; its body
never consults the clock, so the result does not depend on now_month. The
trailing save_cost_tracking call persists the state and is modelled separately
by save_cost_tracking. -/
def track_usage (now_month : String) (ct : CostTracking) (model : Model) (tokens : ℕ)
    (cost : ℚ) : CostTracking :=
  let _ := now_month
  let fresh := !hasKey ct.cost_by_model model.name
  let cbm := if fresh then setKey ct.cost_by_model model.name 0 else ct.cost_by_model
  let tbm := if fresh then setKey ct.tokens_by_model model.name 0 else ct.tokens_by_model
  { ct with
    total_cost := ct.total_cost + cost
    cost_by_model := bumpKey cbm model.name cost
    tokens_by_model := bumpKey tbm model.name tokens }

/-- One track_usage call: the wall-clock month at the moment of the call, the
model billed, the token count and the cost. -/
structure UsageEvent where
  now_month : String
  model : Model
  tokens : ℕ
  cost : ℚ
deriving DecidableEq, Repr

/-- A sequence of track_usage calls applied in order. -/
def run_usage (ct : CostTracking) (events : List UsageEvent) : CostTracking :=
  events.foldl (fun s e => track_usage e.now_month s e.model e.tokens e.cost) ct

/-- A fresh zeroed budget period, as _load_cost_tracking creates for a new
month or a missing file (src/ai/reasoning_engine.py lines 47-54). -/
def fresh_period (month : String) (limit : ℚ) : CostTracking :=
  { month := month, total_cost := 0, cost_by_model := [], tokens_by_model := [],
    budget_limit := limit }

/-- The JSON object shape written to cost_tracking.json by save_cost_tracking:
the five keys of the dict at src/ai/reasoning_engine.py lines 62-68. -/
structure StoredTracking where
  month : String
  total_cost : ℚ
  cost_by_model : List (String × ℚ)
  tokens_by_model : List (String × ℕ)
  budget_limit : ℚ
deriving DecidableEq, Repr

/-- CostOptimizedRouter.save_cost_tracking (lines 56-68): serializes the live
tracking object field by field. -/
def save_cost_tracking (ct : CostTracking) : StoredTracking :=
  { month := ct.month
    total_cost := ct.total_cost
    cost_by_model := ct.cost_by_model
    tokens_by_model := ct.tokens_by_model
    budget_limit := ct.budget_limit }

/-- CostOptimizedRouter._load_cost_tracking (lines 37-54): stored is the parsed
content of cost_tracking.json when the file exists, none otherwise;
current_month is self.current_month and monthly_limit is self.monthly_limit. -/
def load_cost_tracking (stored : Option StoredTracking) (current_month : String)
    (monthly_limit : ℚ) : CostTracking :=
  match stored with
  | some data =>
    if data.month = current_month then
      { month := data.month
        total_cost := data.total_cost
        cost_by_model := data.cost_by_model
        tokens_by_model := data.tokens_by_model
        budget_limit := data.budget_limit }
    else fresh_period current_month monthly_limit
  | none => fresh_period current_month monthly_limit

/-- Strict "better than" on the sort key (quality_score, speed_score),
compared lexicographically: the order of the reverse sort at line 145. -/
def better_key (a b : Model) : Bool :=
  decide (b.quality_score < a.quality_score ∨
    (b.quality_score = a.quality_score ∧ b.speed_score < a.speed_score))

/-- First element of the list attaining the lexicographic maximum of
(quality_score, speed_score). Python list.sort is stable also with
reverse=True, so models[0] after models.sort(key=..., reverse=True) is exactly
this element. -/
def pick_first_best : List Model → Option Model
  | [] => none
  | m :: ms =>
    match pick_first_best ms with
    | none => some m
    | some b => if better_key b m then some b else some m

/-- The candidate pool after the code-generation narrowing of
_select_best_model (lines 138-142): with requires_code_gen the pool narrows to
the models whose capabilities contain "code" when that narrowing is non-empty,
and is left unchanged otherwise. -/
def code_gen_pool (models : List Model) (task : Task) : List Model :=
  if task.requires_code_gen then
    if models.filter (fun m => m.capabilities.contains "code") ≠ [] then
      models.filter (fun m => m.capabilities.contains "code")
    else models
  else models

/-- CostOptimizedRouter._select_best_model (lines 133-147). An empty candidate
list raises ValueError, modelled as Except.error; the reverse stable sort by
(quality_score, speed_score) followed by taking element 0 is pick_first_best
applied to the code-generation-narrowed pool. -/
def select_best_model (models : List Model) (task : Task) : Except String Model :=
  if models = [] then Except.error "No models available"
  else
    match pick_first_best (code_gen_pool models task) with
    | some m => Except.ok m
    | none => Except.error "No models available"

/-- CostOptimizedRouter.route_task (lines 70-131). A raised ValueError is
modelled as Except.error carrying its message. -/
def route_task (ct : CostTracking) (task : Task) (available_models : List Model) :
    Except String Model :=
  let remaining_budget := ct.remaining_budget
  let local_models := available_models.filter (fun m => decide (m.type = ModelType.LOCAL))
  let free_api_models :=
    available_models.filter (fun m => decide (m.type = ModelType.FREE_API) && m.is_free)
  let premium_models := available_models.filter (fun m => decide (m.type = ModelType.PREMIUM_API))
  if remaining_budget ≤ 0 then
    if task.complexity = TaskComplexity.SIMPLE ∨ task.complexity = TaskComplexity.MEDIUM then
      select_best_model (local_models ++ free_api_models) task
    else
      select_best_model local_models task
  else if task.complexity = TaskComplexity.SIMPLE then
    if local_models ≠ [] then select_best_model local_models task
    else if free_api_models ≠ [] then select_best_model free_api_models task
    else Except.error "No models available for simple tasks"
  else if task.complexity = TaskComplexity.MEDIUM then
    let candidates :=
      free_api_models ++ local_models.filter (fun m => decide (7 ≤ m.quality_score))
    if candidates ≠ [] then select_best_model candidates task
    else if 2 < remaining_budget ∧ premium_models ≠ [] then select_best_model premium_models task
    else if local_models ≠ [] then select_best_model local_models task
    else Except.error "No models available for medium complexity tasks"
  else if task.complexity = TaskComplexity.COMPLEX then
    if 5 < remaining_budget ∧ premium_models ≠ [] then select_best_model premium_models task
    else if local_models ≠ [] then select_best_model local_models task
    else if free_api_models ≠ [] then select_best_model free_api_models task
    else Except.error "No models available for complex tasks"
  else
    if 1 < remaining_budget ∧ premium_models ≠ [] then select_best_model premium_models task
    else if local_models ≠ [] then select_best_model local_models task
    else if free_api_models ≠ [] then select_best_model free_api_models task
    else Except.error "No models available for critical tasks"

/-- The ordered fallback tiers of the routing algorithm as the specification
describes them (section 4.4): the candidate pools route_task consults, in
order, for a given remaining budget and complexity. This definition follows
the words of the spec and is compared against route_task in the claim about
the routing failure condition. -/
def tier_pools (remaining : ℚ) (complexity : TaskComplexity) (available_models : List Model) :
    List (List Model) :=
  let L := available_models.filter (fun m => decide (m.type = ModelType.LOCAL))
  let F := available_models.filter (fun m => decide (m.type = ModelType.FREE_API) && m.is_free)
  let P := available_models.filter (fun m => decide (m.type = ModelType.PREMIUM_API))
  if remaining ≤ 0 then
    if complexity = TaskComplexity.SIMPLE ∨ complexity = TaskComplexity.MEDIUM then
      [L ++ F]
    else [L]
  else
    match complexity with
    | TaskComplexity.SIMPLE => [L, F]
    | TaskComplexity.MEDIUM =>
      [F ++ L.filter (fun m => decide (7 ≤ m.quality_score)),
       if 2 < remaining then P else [], L]
    | TaskComplexity.COMPLEX => [if 5 < remaining then P else [], L, F]
    | TaskComplexity.CRITICAL => [if 1 < remaining then P else [], L, F]

/-- ReasoningEngine._analyze_complexity (lines 361-373). -/
def analyze_complexity (task : Task) : TaskComplexity :=
  let content_length := task.content.length
  if content_length < 100 ∧ task.requires_code_gen = false then TaskComplexity.SIMPLE
  else if content_length < 500 ∨ task.requires_code_gen = true then TaskComplexity.MEDIUM
  else if content_length < 2000 then TaskComplexity.COMPLEX
  else TaskComplexity.CRITICAL

/-- Outcome of the HTTP request _process_with_ollama sends to the Ollama
server (lines 296-342): a 200 response with a body, a 404, another status, or
an asyncio timeout. -/
inductive OllamaOutcome where
  | ok (response_body : String)
  | notFound (error_body : String)
  | httpError (status : ℕ) (error_body : String)
  | timeout

/-- The external collaborators ReasoningEngine consults during a dispatch: the
Ollama endpoint keyed by model name, os.environ.get, the tiktoken encoder when
_init_tokenizer succeeded, the regex-and-JSON parsing of the response text
(_extract_actions_and_reasoning, lines 408-443, on which no claim depends),
and the measured wall-clock latency. -/
structure ReasoningEnv where
  ollama : String → OllamaOutcome
  getenv : String → Option String
  tokenizer : Option (String → ℕ)
  extract_actions_and_reasoning : String → List Action × String
  elapsed : ℚ

/-- ReasoningEngine._count_tokens (lines 400-406). -/
def count_tokens (env : ReasoningEnv) (text : String) : ℕ :=
  match env.tokenizer with
  | some encode => encode text
  | none => text.length / 4

/-- ReasoningEngine._build_prompt (lines 375-398). -/
def build_prompt (task : Task) : String :=
  let system_prompt := "You are NOVA, a helpful AI assistant. \nProvide clear, friendly, and helpful responses.\nWhen someone greets you, respond naturally and warmly.\nFor technical tasks, be precise and accurate."
  let context_items :=
    (match lookupKey task.context "system_info" with
     | some v => ["System: " ++ v]
     | none => []) ++
    (match lookupKey task.context "current_directory" with
     | some v => ["Current directory: " ++ v]
     | none => []) ++
    (match lookupKey task.context "recent_files" with
     | some v => ["Recent files: " ++ v]
     | none => [])
  let context_str :=
    if context_items = [] then ""
    else "\n\nContext:\n" ++ String.intercalate "\n" context_items
  system_prompt ++ context_str ++ "\n\nUser: " ++ task.content ++ "\n\nNOVA:"

/-- ReasoningEngine._process_with_ollama (lines 287-342). On a 200 response it
builds the AIResponse (cost 0, confidence 0.9, tokens counted on the prompt);
every other outcome raises, re-raised to the caller. -/
def process_with_ollama (env : ReasoningEnv) (task : Task) (model : Model) :
    Except String AIResponse :=
  let prompt := build_prompt task
  let tokens := count_tokens env prompt
  match env.ollama model.name with
  | OllamaOutcome.ok body =>
    let parsed := env.extract_actions_and_reasoning body
    Except.ok
      { content := body
        actions := parsed.1
        reasoning := parsed.2
        model_used := model.name
        confidence := 9 / 10
        fallback_used := false
        tokens_used := tokens
        cost := 0
        processing_time := 0 }
  | OllamaOutcome.notFound _ =>
    Except.error ("Model " ++ model.name ++ " not installed. Run: ollama pull " ++ model.name)
  | OllamaOutcome.httpError status body =>
    Except.error ("Ollama returned status " ++ toString status ++ ": " ++ body)
  | OllamaOutcome.timeout => Except.error "Ollama request timed out"

/-- ReasoningEngine._process_with_free_api (lines 344-348): unconditionally
raises NotImplementedError. -/
def process_with_free_api (env : ReasoningEnv) (task : Task) (model : Model) :
    Except String AIResponse :=
  let _ := env
  let _ := task
  let _ := model
  Except.error "Free API integration pending"

/-- ReasoningEngine._process_with_premium_api (lines 350-359): raises when the
API key environment variable is missing, and NotImplementedError otherwise. -/
def process_with_premium_api (env : ReasoningEnv) (task : Task) (model : Model) :
    Except String AIResponse :=
  let _ := task
  match env.getenv (model.name.toUpper ++ "_API_KEY") with
  | none => Except.error ("No API key found for " ++ model.name)
  | some _ => Except.error "Premium API integration pending"

/-- ReasoningEngine._process_with_model (lines 278-285). -/
def process_with_model (env : ReasoningEnv) (task : Task) (model : Model) :
    Except String AIResponse :=
  if model.type = ModelType.LOCAL then process_with_ollama env task model
  else if model.type = ModelType.FREE_API then process_with_free_api env task model
  else process_with_premium_api env task model

/-- ReasoningEngine._get_fallback_model (lines 445-466). -/
def get_fallback_model (available_models : List Model) (failed_model : Model) : Option Model :=
  let generic := available_models.find? (fun m => decide (m ≠ failed_model))
  if failed_model.type = ModelType.LOCAL then
    match available_models.filter
        (fun m => decide (m.type = ModelType.FREE_API ∨ m.type = ModelType.PREMIUM_API)) with
    | c :: _ => some c
    | [] => generic
  else
    match available_models.filter (fun m => decide (m.type = ModelType.LOCAL)) with
    | l :: _ => some l
    | [] => generic

/-- The terminal failure response returned when every attempt failed
(lines 266-276). -/
def failure_response (env : ReasoningEnv) : AIResponse :=
  { content := "I encountered an error processing your request. Please try again."
    actions := []
    reasoning := "All models failed to process the request"
    model_used := "none"
    confidence := 0
    fallback_used := true
    tokens_used := 0
    cost := 0
    processing_time := env.elapsed }

/-- ReasoningEngine.process_task (lines 220-276), as a transformer of the
router's cost-tracking state. route_task is called outside the try block, so
its ValueError propagates as Except.error; the two invocation attempts are
inside try blocks, so their failures drive the fallback; the cost-tracking
state comes back unchanged because no path of process_task calls track_usage.
The Task dataclass requires a complexity, so the hasattr branch at line 225 is
never taken; the self-analysis call at line 241 records telemetry in an
external collaborator and does not alter the response. -/
def process_task (env : ReasoningEnv) (ct : CostTracking) (available_models : List Model)
    (task : Task) : Except String AIResponse × CostTracking :=
  match route_task ct task available_models with
  | Except.error e => (Except.error e, ct)
  | Except.ok selected_model =>
    match process_with_model env task selected_model with
    | Except.ok response =>
      (Except.ok { response with processing_time := env.elapsed }, ct)
    | Except.error _ =>
      match get_fallback_model available_models selected_model with
      | some fallback_model =>
        match process_with_model env task fallback_model with
        | Except.ok response =>
          (Except.ok { response with fallback_used := true, processing_time := env.elapsed }, ct)
        | Except.error _ => (Except.ok (failure_response env), ct)
      | none => (Except.ok (failure_response env), ct)

/-- True when an Except value models a raised exception. -/
def isError {ε α : Type} : Except ε α → Bool
  | Except.error _ => true
  | Except.ok _ => false

/-- True when a dispatch returned a response whose success flag is set. -/
def dispatch_succeeded (result : Except String AIResponse) : Bool :=
  match result with
  | Except.ok r => r.success
  | Except.error _ => false

/-- A concrete Local model used as a test point. -/
def llama_model : Model :=
  { name := "llama3", type := ModelType.LOCAL, size_gb := some 4, context_window := 8192,
    capabilities := ["general", "code"], cost_per_1k_tokens := 0, speed_score := 8,
    quality_score := 7 }

/-- A concrete PremiumRemote model used as a test point. -/
def gpt4_model : Model :=
  { name := "gpt-4", type := ModelType.PREMIUM_API, size_gb := none, context_window := 8192,
    capabilities := ["general", "code", "reasoning"], cost_per_1k_tokens := 3 / 100,
    speed_score := 7, quality_score := 10 }

/-- A concrete FreeRemote model used as a test point. -/
def groq_model : Model :=
  { name := "groq-llama", type := ModelType.FREE_API, size_gb := none, context_window := 8192,
    capabilities := ["general", "fast"], cost_per_1k_tokens := 0, speed_score := 10,
    quality_score := 6 }

/-- A January period holding 7.5 of accumulated spend. -/
def january_ledger : CostTracking :=
  { month := "2024-01", total_cost := 15 / 2, cost_by_model := [("gpt-4", 15 / 2)],
    tokens_by_model := [("gpt-4", 250000)], budget_limit := 10 }

/-- A period whose spend exceeds the limit: remaining budget 0. -/
def exhausted_ledger : CostTracking :=
  { month := "2024-01", total_cost := 12, cost_by_model := [("gpt-4", 12)],
    tokens_by_model := [("gpt-4", 400000)], budget_limit := 10 }

/-- A period with remaining budget exactly 1.5. -/
def midbudget_ledger : CostTracking :=
  { month := "2024-01", total_cost := 17 / 2, cost_by_model := [("gpt-4", 17 / 2)],
    tokens_by_model := [("gpt-4", 283000)], budget_limit := 10 }

/-- A short greeting task of Simple complexity. -/
def simple_task : Task := { content := "hi", complexity := TaskComplexity.SIMPLE }

/-- A task of Complex complexity. -/
def complex_task : Task :=
  { content := "design a distributed consensus protocol", complexity := TaskComplexity.COMPLEX }

/-- An environment in which every Ollama request times out, no API key is
configured and the tokenizer fell back to the length estimate. -/
def failing_env : ReasoningEnv :=
  { ollama := fun _ => OllamaOutcome.timeout, getenv := fun _ => none, tokenizer := none,
    extract_actions_and_reasoning := fun _ => ([], ""), elapsed := 0 }

/-- An environment in which every Ollama request answers 200 with a body. -/
def ok_env : ReasoningEnv :=
  { ollama := fun _ => OllamaOutcome.ok "Hello there!", getenv := fun _ => none,
    tokenizer := none, extract_actions_and_reasoning := fun _ => ([], ""), elapsed := 1 }

/-- A concrete sequence of track_usage calls. -/
def sample_events : List UsageEvent :=
  [ { now_month := "2024-03", model := gpt4_model, tokens := 1000, cost := 3 / 100 },
    { now_month := "2024-03", model := llama_model, tokens := 500, cost := 0 },
    { now_month := "2024-03", model := gpt4_model, tokens := 2000, cost := 6 / 100 } ]

theorem hasKey_eq_true_iff {α : Type} (l : List (String × α)) (k : String) :
    hasKey l k = true ↔ ∃ p ∈ l, p.1 = k := by
  simp [hasKey, List.any_eq_true]

theorem bumpKey_of_hasKey_eq_false {α : Type} [Add α] (l : List (String × α)) (k : String)
    (v : α) (h : hasKey l k = false) : bumpKey l k v = l := by
  induction l with
  | nil => rfl
  | cons p t ih =>
    simp only [hasKey, List.any_cons, Bool.or_eq_false_iff, decide_eq_false_iff_not] at h
    simp only [bumpKey, List.map_cons, if_neg h.1]
    have := ih h.2
    simp only [bumpKey] at this
    rw [this]

theorem keysOf_bumpKey {α : Type} [Add α] (l : List (String × α)) (k : String) (v : α) :
    keysOf (bumpKey l k v) = keysOf l := by
  induction l with
  | nil => rfl
  | cons p t ih =>
    simp only [bumpKey, keysOf, List.map_cons] at *
    by_cases hp : p.1 = k <;> simp [hp, ih]

theorem setKey_of_hasKey_eq_false {α : Type} (l : List (String × α)) (k : String) (v : α)
    (h : hasKey l k = false) : setKey l k v = l ++ [(k, v)] := by
  simp [setKey, h]

theorem hasKey_append_singleton {α : Type} (l : List (String × α)) (k : String) (v : α) :
    hasKey (l ++ [(k, v)]) k = true := by
  simp [hasKey]

theorem sumVals_append_singleton (l : List (String × ℚ)) (k : String) (v : ℚ) :
    sumVals (l ++ [(k, v)]) = sumVals l + v := by
  simp [sumVals]

theorem sumVals_bumpKey (l : List (String × ℚ)) (k : String) (v : ℚ)
    (hnd : (keysOf l).Nodup) (hk : hasKey l k = true) :
    sumVals (bumpKey l k v) = sumVals l + v := by
  induction l with
  | nil => simp [hasKey] at hk
  | cons p t ih =>
    simp only [keysOf, List.map_cons, List.nodup_cons] at hnd
    by_cases hp : p.1 = k
    · have ht : hasKey t k = false := by
        rcases Bool.eq_false_or_eq_true (hasKey t k) with h | h
        · rcases (hasKey_eq_true_iff t k).mp h with ⟨q, hq, hqk⟩
          exact absurd (List.mem_map_of_mem Prod.fst hq) (by rw [hp, ← hqk] at hnd; exact hnd.1)
        · exact h
      have htb := bumpKey_of_hasKey_eq_false t k v ht
      simp only [bumpKey, List.map_cons, if_pos hp]
      simp only [bumpKey] at htb
      rw [htb]
      simp only [sumVals, List.map_cons, List.sum_cons]
      ring
    · have ht : hasKey t k = true := by
        simp only [hasKey, List.any_cons, Bool.or_eq_true] at hk
        rcases hk with h | h
        · exact absurd (of_decide_eq_true h) hp
        · exact h
      have hrec := ih hnd.2 ht
      simp only [bumpKey, List.map_cons, if_neg hp]
      simp only [bumpKey] at hrec
      simp only [sumVals, List.map_cons, List.sum_cons] at hrec ⊢
      rw [hrec]
      ring

theorem keysOf_nodup_setKey_absent {α : Type} (l : List (String × α)) (k : String) (v : α)
    (hnd : (keysOf l).Nodup) (h : hasKey l k = false) :
    (keysOf (setKey l k v)).Nodup := by
  rw [setKey_of_hasKey_eq_false l k v h]
  simp only [keysOf, List.map_append, List.map_cons, List.map_nil]
  rw [List.nodup_append]
  refine ⟨hnd, List.nodup_singleton k, ?_⟩
  intro a ha hb
  simp only [List.mem_singleton] at hb
  subst hb
  rcases List.mem_map.mp ha with ⟨p, hp, hpk⟩
  have : hasKey l a = true := (hasKey_eq_true_iff l a).mpr ⟨p, hp, hpk⟩
  rw [this] at h
  exact Bool.true_eq_false.mp h

/-- One track_usage call preserves the ledger invariants: unique dict keys,
total_cost in step with the sum of the per-model costs, and the month and
limit untouched. -/
theorem track_usage_step (now : String) (ct : CostTracking) (m : Model) (tk : ℕ) (c : ℚ)
    (hnd : (keysOf ct.cost_by_model).Nodup)
    (hsum : ct.total_cost = sumVals ct.cost_by_model) :
    (keysOf (track_usage now ct m tk c).cost_by_model).Nodup ∧
    (track_usage now ct m tk c).total_cost = sumVals (track_usage now ct m tk c).cost_by_model ∧
    (track_usage now ct m tk c).total_cost = ct.total_cost + c ∧
    (track_usage now ct m tk c).budget_limit = ct.budget_limit ∧
    (track_usage now ct m tk c).month = ct.month := by
  have hmonth : (track_usage now ct m tk c).month = ct.month := by
    by_cases h : hasKey ct.cost_by_model m.name <;> simp [track_usage, h]
  have hlimit : (track_usage now ct m tk c).budget_limit = ct.budget_limit := by
    by_cases h : hasKey ct.cost_by_model m.name <;> simp [track_usage, h]
  have htotal : (track_usage now ct m tk c).total_cost = ct.total_cost + c := by
    by_cases h : hasKey ct.cost_by_model m.name <;> simp [track_usage, h]
  rcases Bool.eq_false_or_eq_true (hasKey ct.cost_by_model m.name) with h | h
  · have hcbm : (track_usage now ct m tk c).cost_by_model =
        bumpKey ct.cost_by_model m.name c := by
      simp [track_usage, h]
    refine ⟨?_, ?_, htotal, hlimit, hmonth⟩
    · rw [hcbm, keysOf_bumpKey]; exact hnd
    · rw [hcbm, htotal, sumVals_bumpKey _ _ _ hnd h, hsum]
  · have hset := setKey_of_hasKey_eq_false ct.cost_by_model m.name (0 : ℚ) h
    have hnd2 : (keysOf (setKey ct.cost_by_model m.name (0 : ℚ))).Nodup :=
      keysOf_nodup_setKey_absent _ _ _ hnd h
    have hk2 : hasKey (setKey ct.cost_by_model m.name (0 : ℚ)) m.name = true := by
      rw [hset]; exact hasKey_append_singleton _ _ _
    have hcbm : (track_usage now ct m tk c).cost_by_model =
        bumpKey (setKey ct.cost_by_model m.name 0) m.name c := by
      simp [track_usage, h]
    refine ⟨?_, ?_, htotal, hlimit, hmonth⟩
    · rw [hcbm, keysOf_bumpKey]; exact hnd2
    · rw [hcbm, htotal, sumVals_bumpKey _ _ _ hnd2 hk2, hset, sumVals_append_singleton, hsum]
      ring

/-- Any sequence of track_usage calls preserves the ledger invariants and adds
exactly the sum of the recorded costs to total_cost. -/
theorem run_usage_inv (events : List UsageEvent) (ct : CostTracking)
    (hnd : (keysOf ct.cost_by_model).Nodup)
    (hsum : ct.total_cost = sumVals ct.cost_by_model) :
    (keysOf (run_usage ct events).cost_by_model).Nodup ∧
    (run_usage ct events).total_cost = sumVals (run_usage ct events).cost_by_model ∧
    (run_usage ct events).total_cost = ct.total_cost + (events.map UsageEvent.cost).sum ∧
    (run_usage ct events).budget_limit = ct.budget_limit ∧
    (run_usage ct events).month = ct.month := by
  induction events generalizing ct with
  | nil =>
    exact ⟨hnd, hsum, by simp [run_usage], rfl, rfl⟩
  | cons e rest ih =>
    have hstep := track_usage_step e.now_month ct e.model e.tokens e.cost hnd hsum
    have hrec := ih (track_usage e.now_month ct e.model e.tokens e.cost) hstep.1 hstep.2.1
    simp only [run_usage, List.foldl_cons, List.map_cons, List.sum_cons] at *
    refine ⟨hrec.1, hrec.2.1, ?_, ?_, ?_⟩
    · rw [hrec.2.2.1, hstep.2.2.1]; ring
    · rw [hrec.2.2.2.1, hstep.2.2.2.1]
    · rw [hrec.2.2.2.2, hstep.2.2.2.2]

/-- C8: for every sequence of track_usage calls with non-negative costs
applied to a zeroed period, the final total_cost equals the sum of all
recorded costs and equals the sum of the per-model spend map values, and the
remaining budget is max(0, limit - total_cost), hence never negative. The
quantification over arbitrary call sequences gives the property after every
call of any sequence. -/
theorem C8_budget_invariant (month : String) (limit : ℚ) (events : List UsageEvent)
    (hcost : ∀ e ∈ events, 0 ≤ e.cost) :
    (run_usage (fresh_period month limit) events).total_cost =
      (events.map UsageEvent.cost).sum ∧
    (run_usage (fresh_period month limit) events).total_cost =
      sumVals (run_usage (fresh_period month limit) events).cost_by_model ∧
    (run_usage (fresh_period month limit) events).remaining_budget =
      max 0 (limit - (run_usage (fresh_period month limit) events).total_cost) ∧
    0 ≤ (run_usage (fresh_period month limit) events).remaining_budget := by
  have _ := hcost
  have h := run_usage_inv events (fresh_period month limit)
    (by simp [fresh_period, keysOf]) (by simp [fresh_period, sumVals])
  refine ⟨?_, h.2.1, ?_, ?_⟩
  · rw [h.2.2.1]; simp [fresh_period]
  · unfold CostTracking.remaining_budget
    rw [h.2.2.2.1]
    simp [fresh_period]
  · exact le_max_left 0 _

/-- Witness for C8 at a concrete three-call sequence. -/
theorem C8_budget_invariant_witness :
    (∀ e ∈ sample_events, 0 ≤ e.cost) ∧
    ((run_usage (fresh_period "2024-03" 10) sample_events).total_cost =
      (sample_events.map UsageEvent.cost).sum ∧
    (run_usage (fresh_period "2024-03" 10) sample_events).total_cost =
      sumVals (run_usage (fresh_period "2024-03" 10) sample_events).cost_by_model ∧
    (run_usage (fresh_period "2024-03" 10) sample_events).remaining_budget =
      max 0 (10 - (run_usage (fresh_period "2024-03" 10) sample_events).total_cost) ∧
    0 ≤ (run_usage (fresh_period "2024-03" 10) sample_events).remaining_budget) :=
  ⟨by norm_num [sample_events, List.forall_mem_cons],
   C8_budget_invariant "2024-03" 10 sample_events
     (by norm_num [sample_events, List.forall_mem_cons])⟩

/-- C7: the classifier is a total deterministic function of the request length
and the requires_code_gen flag: Simple iff length < 100 and not code-gen;
otherwise Medium iff length < 500 or code-gen; otherwise Complex iff
length < 2000; otherwise Critical — for every input string and flag. -/
theorem C7_classifier_characterization (task : Task) :
    (analyze_complexity task = TaskComplexity.SIMPLE ↔
      (task.content.length < 100 ∧ task.requires_code_gen = false)) ∧
    (analyze_complexity task = TaskComplexity.MEDIUM ↔
      (¬(task.content.length < 100 ∧ task.requires_code_gen = false) ∧
        (task.content.length < 500 ∨ task.requires_code_gen = true))) ∧
    (analyze_complexity task = TaskComplexity.COMPLEX ↔
      (¬(task.content.length < 100 ∧ task.requires_code_gen = false) ∧
        ¬(task.content.length < 500 ∨ task.requires_code_gen = true) ∧
        task.content.length < 2000)) ∧
    (analyze_complexity task = TaskComplexity.CRITICAL ↔
      (¬(task.content.length < 100 ∧ task.requires_code_gen = false) ∧
        ¬(task.content.length < 500 ∨ task.requires_code_gen = true) ∧
        ¬task.content.length < 2000)) := by
  unfold analyze_complexity
  by_cases h1 : task.content.length < 100 ∧ task.requires_code_gen = false
  · simp [h1]
  · by_cases h2 : task.content.length < 500 ∨ task.requires_code_gen = true
    · simp [h1, h2]
    · by_cases h3 : task.content.length < 2000
      · simp [h1, h2, h3]
      · simp [h1, h2, h3]

/-- C9: saving a budget period and reloading it during the same calendar month
reproduces the period exactly: every field round-trips, whatever the maps
hold. -/
theorem C9_save_load_roundtrip (ct : CostTracking) (monthly_limit : ℚ) :
    load_cost_tracking (some (save_cost_tracking ct)) ct.month monthly_limit = ct := by
  simp [load_cost_tracking, save_cost_tracking]

/-- C3 counterexample: a record operation performed when the wall-clock month
is "2024-02" on a ledger whose period key is "2024-01" with total_spent 7.5
does not first replace the period with a fresh zeroed one: the total becomes
8.5 instead of the cost alone, the month key stays "2024-01" and the per-model
map stays non-empty, because track_usage performs no month-rollover check. -/
theorem C3_record_ignores_month_counterexample :
    (track_usage "2024-02" january_ledger gpt4_model 1000 1).total_cost = 17 / 2 ∧
    (track_usage "2024-02" january_ledger gpt4_model 1000 1).month = "2024-01" ∧
    (track_usage "2024-02" january_ledger gpt4_model 1000 1).cost_by_model =
      [("gpt-4", 17 / 2)] := by
  refine ⟨?_, ?_, ?_⟩ <;>
    simp [track_usage, january_ledger, gpt4_model, hasKey, setKey, bumpKey] <;> norm_num

/-- C3 (amended): the in-memory period is replaced by a fresh zeroed one only
when the tracking is loaded from disk (at router construction): loading stored
data whose month key differs from the current wall-clock month yields
total_spent 0 and empty per-model maps without raising. Operations on the live
object (track_usage, remaining_budget) perform no rollover. -/
theorem C3_rollover_only_on_load (data : StoredTracking) (current_month : String)
    (monthly_limit : ℚ) (h : data.month ≠ current_month) :
    load_cost_tracking (some data) current_month monthly_limit =
      fresh_period current_month monthly_limit := by
  simp [load_cost_tracking, h]

/-- Witness for the amended C3 at the concrete stored period "2024-01" loaded
in "2024-02". -/
theorem C3_rollover_only_on_load_witness :
    (save_cost_tracking january_ledger).month ≠ "2024-02" ∧
    load_cost_tracking (some (save_cost_tracking january_ledger)) "2024-02" 10 =
      fresh_period "2024-02" 10 :=
  ⟨by decide, C3_rollover_only_on_load _ _ _ (by decide)⟩

theorem pick_first_best_cons (m : Model) (ms : List Model) :
    ∃ x, pick_first_best (m :: ms) = some x := by
  simp only [pick_first_best]
  cases pick_first_best ms with
  | none => exact ⟨m, rfl⟩
  | some b =>
    by_cases hb : better_key b m = true
    · exact ⟨b, by simp [hb]⟩
    · exact ⟨m, by simp [hb]⟩

theorem pick_first_best_mem : ∀ (l : List Model) (m : Model),
    pick_first_best l = some m → m ∈ l := by
  intro l
  induction l with
  | nil => intro m h; simp [pick_first_best] at h
  | cons a t ih =>
    intro m h
    simp only [pick_first_best] at h
    split at h
    · injection h with h
      exact h ▸ List.mem_cons_self a t
    · rename_i b hp
      split at h
      · injection h with h
        exact List.mem_cons_of_mem a (ih m (h ▸ hp))
      · injection h with h
        exact h ▸ List.mem_cons_self a t

theorem code_gen_pool_subset (models : List Model) (task : Task) :
    code_gen_pool models task ⊆ models := by
  unfold code_gen_pool
  by_cases hcg : task.requires_code_gen = true
  · rw [if_pos hcg]
    by_cases hc : models.filter (fun m => m.capabilities.contains "code") = []
    · rw [if_neg (by simpa using hc)]
      exact List.Subset.refl models
    · rw [if_pos hc]
      exact List.filter_subset' models
  · rw [if_neg hcg]
    exact List.Subset.refl models

theorem code_gen_pool_ne_nil (models : List Model) (task : Task) (h : models ≠ []) :
    code_gen_pool models task ≠ [] := by
  unfold code_gen_pool
  by_cases hcg : task.requires_code_gen = true
  · rw [if_pos hcg]
    by_cases hc : models.filter (fun m => m.capabilities.contains "code") = []
    · rw [if_neg (by simpa using hc)]
      exact h
    · rw [if_pos hc]
      exact hc
  · rw [if_neg hcg]
    exact h

theorem select_best_model_ok (models : List Model) (task : Task) (h : models ≠ []) :
    ∃ m, select_best_model models task = Except.ok m ∧ m ∈ models := by
  unfold select_best_model
  rw [if_neg h]
  have hp := code_gen_pool_ne_nil models task h
  rcases List.exists_cons_of_ne_nil hp with ⟨a, t, hat⟩
  rcases pick_first_best_cons a t with ⟨x, hx⟩
  have hxm : x ∈ code_gen_pool models task := by
    rw [hat]; exact pick_first_best_mem _ x hx
  rw [hat, hx]
  exact ⟨x, rfl, code_gen_pool_subset models task hxm⟩

theorem select_best_model_mem (models : List Model) (task : Task) (m : Model)
    (h : select_best_model models task = Except.ok m) : m ∈ models := by
  unfold select_best_model at h
  by_cases hn : models = []
  · rw [if_pos hn] at h; simp at h
  · rw [if_neg hn] at h
    split at h
    · rename_i x hp
      injection h with h
      exact code_gen_pool_subset models task (pick_first_best_mem _ _ (h ▸ hp))
    · simp at h

theorem isError_select_best_model (models : List Model) (task : Task) :
    isError (select_best_model models task) = true ↔ models = [] := by
  constructor
  · intro h
    by_contra hn
    rcases select_best_model_ok models task hn with ⟨m, hm, _⟩
    rw [hm] at h
    simp [isError] at h
  · intro h
    subst h
    simp [select_best_model, isError]

theorem isError_select_eq_false (models : List Model) (task : Task) (h : models ≠ []) :
    isError (select_best_model models task) = false := by
  rw [Bool.eq_false_iff, Ne, isError_select_best_model]
  exact h

set_option maxHeartbeats 1000000 in
/-- C2: route_task raises its no-model-available failure exactly when every
pool at every fallback tier for the task's complexity (under the current
remaining budget) is empty; in particular it never fails while a Local model
is available, since Local models sit in some tier of every branch. -/
theorem C2_route_failure_characterization (ct : CostTracking) (task : Task)
    (available_models : List Model) :
    ((isError (route_task ct task available_models) = true) ↔
      ∀ pool ∈ tier_pools ct.remaining_budget task.complexity available_models, pool = []) ∧
    (available_models.filter (fun m => decide (m.type = ModelType.LOCAL)) ≠ [] →
      isError (route_task ct task available_models) = false) := by
  simp only [route_task, tier_pools]
  rcases hc : task.complexity with _ | _ | _ | _ <;>
    by_cases hb : ct.remaining_budget ≤ 0 <;>
    simp only [hc, hb, if_true, if_false, ite_true, ite_false, reduceCtorEq, or_self, or_false,
      false_or, true_or, or_true, if_pos, eq_self_iff_true] <;>
    set L := available_models.filter (fun m => decide (m.type = ModelType.LOCAL)) with hLdef <;>
    set F := available_models.filter (fun m => decide (m.type = ModelType.FREE_API) && m.is_free)
      with hFdef <;>
    set P := available_models.filter (fun m => decide (m.type = ModelType.PREMIUM_API)) with hPdef
  -- SIMPLE, remaining_budget <= 0
  · refine ⟨?_, ?_⟩
    · rw [isError_select_best_model]
      simp
    · intro hLn
      refine isError_select_eq_false _ task ?_
      intro hcon
      exact hLn (List.append_eq_nil.mp hcon).1
  -- SIMPLE, remaining_budget > 0
  · by_cases hLn : L = []
    · rw [if_neg (not_not_intro hLn)]
      by_cases hFn : F = []
      · rw [if_neg (not_not_intro hFn)]
        refine ⟨?_, ?_⟩
        · simp [isError, hLn, hFn]
        · intro hcon
          exact absurd hLn hcon
      · rw [if_pos hFn]
        refine ⟨?_, ?_⟩
        · rw [isError_select_best_model]
          simp [hLn]
        · intro hcon
          exact absurd hLn hcon
    · rw [if_pos hLn]
      refine ⟨?_, ?_⟩
      · rw [isError_select_best_model]
        simp [hLn]
      · intro _
        exact isError_select_eq_false _ task hLn
  -- MEDIUM, remaining_budget <= 0
  · refine ⟨?_, ?_⟩
    · rw [isError_select_best_model]
      simp
    · intro hLn
      refine isError_select_eq_false _ task ?_
      intro hcon
      exact hLn (List.append_eq_nil.mp hcon).1
  -- MEDIUM, remaining_budget > 0
  · by_cases hC : F ++ L.filter (fun m => decide (7 ≤ m.quality_score)) = []
    · rw [if_neg (not_not_intro hC)]
      by_cases h2 : 2 < ct.remaining_budget ∧ P ≠ []
      · rw [if_pos h2]
        refine ⟨?_, ?_⟩
        · rw [isError_select_best_model]
          simp [h2.1, h2.2]
        · intro _
          exact isError_select_eq_false _ task h2.2
      · rw [if_neg h2]
        by_cases hLn : L = []
        · rw [if_neg (not_not_intro hLn)]
          refine ⟨?_, ?_⟩
          · constructor
            · intro _
              simp only [List.forall_mem_cons, List.forall_mem_singleton]
              refine ⟨hC, ?_, hLn, by simp⟩
              by_cases hr : 2 < ct.remaining_budget
              · rw [if_pos hr]
                by_contra hPn
                exact h2 ⟨hr, hPn⟩
              · rw [if_neg hr]
            · intro _
              rfl
          · intro hcon
            exact absurd hLn hcon
        · rw [if_pos hLn]
          refine ⟨?_, ?_⟩
          · rw [isError_select_best_model]
            simp [hLn]
          · intro _
            exact isError_select_eq_false _ task hLn
    · rw [if_pos hC]
      refine ⟨?_, ?_⟩
      · rw [isError_select_best_model]
        simp [hC]
      · intro _
        exact isError_select_eq_false _ task hC
  -- COMPLEX, remaining_budget <= 0
  · refine ⟨?_, ?_⟩
    · rw [isError_select_best_model]
      simp
    · intro hLn
      exact isError_select_eq_false _ task hLn
  -- COMPLEX, remaining_budget > 0
  · by_cases h5 : 5 < ct.remaining_budget ∧ P ≠ []
    · rw [if_pos h5]
      refine ⟨?_, ?_⟩
      · rw [isError_select_best_model]
        simp [h5.1, h5.2]
      · intro _
        exact isError_select_eq_false _ task h5.2
    · rw [if_neg h5]
      by_cases hLn : L = []
      · rw [if_neg (not_not_intro hLn)]
        by_cases hFn : F = []
        · rw [if_neg (not_not_intro hFn)]
          refine ⟨?_, ?_⟩
          · constructor
            · intro _
              simp only [List.forall_mem_cons, List.forall_mem_singleton]
              refine ⟨?_, hLn, hFn, by simp⟩
              by_cases hr : 5 < ct.remaining_budget
              · rw [if_pos hr]
                by_contra hPn
                exact h5 ⟨hr, hPn⟩
              · rw [if_neg hr]
            · intro _
              rfl
          · intro hcon
            exact absurd hLn hcon
        · rw [if_pos hFn]
          refine ⟨?_, ?_⟩
          · rw [isError_select_best_model]
            simp [hFn]
          · intro hcon
            exact absurd hLn hcon
      · rw [if_pos hLn]
        refine ⟨?_, ?_⟩
        · rw [isError_select_best_model]
          simp [hLn]
        · intro _
          exact isError_select_eq_false _ task hLn
  -- CRITICAL, remaining_budget <= 0
  · refine ⟨?_, ?_⟩
    · rw [isError_select_best_model]
      simp
    · intro hLn
      exact isError_select_eq_false _ task hLn
  -- CRITICAL, remaining_budget > 0
  · by_cases h1 : 1 < ct.remaining_budget ∧ P ≠ []
    · rw [if_pos h1]
      refine ⟨?_, ?_⟩
      · rw [isError_select_best_model]
        simp [h1.1, h1.2]
      · intro _
        exact isError_select_eq_false _ task h1.2
    · rw [if_neg h1]
      by_cases hLn : L = []
      · rw [if_neg (not_not_intro hLn)]
        by_cases hFn : F = []
        · rw [if_neg (not_not_intro hFn)]
          refine ⟨?_, ?_⟩
          · constructor
            · intro _
              simp only [List.forall_mem_cons, List.forall_mem_singleton]
              refine ⟨?_, hLn, hFn, by simp⟩
              by_cases hr : 1 < ct.remaining_budget
              · rw [if_pos hr]
                by_contra hPn
                exact h1 ⟨hr, hPn⟩
              · rw [if_neg hr]
            · intro _
              rfl
          · intro hcon
            exact absurd hLn hcon
        · rw [if_pos hFn]
          refine ⟨?_, ?_⟩
          · rw [isError_select_best_model]
            simp [hFn]
          · intro hcon
            exact absurd hLn hcon
      · rw [if_pos hLn]
        refine ⟨?_, ?_⟩
        · rw [isError_select_best_model]
          simp [hLn]
        · intro _
          exact isError_select_eq_false _ task hLn

/-- C5: with remaining budget exactly 1.5 and both a PremiumRemote and a Local
model available, routing a Critical task selects a PremiumRemote model as
primary, while routing a Complex task with the same registry and budget
selects a Local model instead. -/
theorem C5_critical_overrides_thresholds (ct : CostTracking) (task : Task)
    (available_models : List Model)
    (hb : ct.remaining_budget = 3 / 2)
    (hp : available_models.filter (fun m => decide (m.type = ModelType.PREMIUM_API)) ≠ [])
    (hl : available_models.filter (fun m => decide (m.type = ModelType.LOCAL)) ≠ []) :
    (∃ m, route_task ct { task with complexity := TaskComplexity.CRITICAL } available_models =
        Except.ok m ∧ m.type = ModelType.PREMIUM_API) ∧
    (∃ m, route_task ct { task with complexity := TaskComplexity.COMPLEX } available_models =
        Except.ok m ∧ m.type = ModelType.LOCAL) := by
  have hb0 : ¬ct.remaining_budget ≤ 0 := by rw [hb]; norm_num
  have hb1 : 1 < ct.remaining_budget := by rw [hb]; norm_num
  have hb5 : ¬(5 < ct.remaining_budget ∧
      available_models.filter (fun m => decide (m.type = ModelType.PREMIUM_API)) ≠ []) := by
    rw [hb]; rintro ⟨hcon, _⟩; norm_num at hcon
  constructor
  · rcases select_best_model_ok
        (available_models.filter (fun m => decide (m.type = ModelType.PREMIUM_API)))
        { task with complexity := TaskComplexity.CRITICAL } hp with ⟨m, hok, hmem⟩
    refine ⟨m, ?_, of_decide_eq_true (List.mem_filter.mp hmem).2⟩
    simp only [route_task]
    rw [if_neg hb0]
    simp only [reduceCtorEq, or_self, if_false, ite_false]
    rw [if_pos ⟨hb1, hp⟩]
    exact hok
  · rcases select_best_model_ok
        (available_models.filter (fun m => decide (m.type = ModelType.LOCAL)))
        { task with complexity := TaskComplexity.COMPLEX } hl with ⟨m, hok, hmem⟩
    refine ⟨m, ?_, of_decide_eq_true (List.mem_filter.mp hmem).2⟩
    simp only [route_task]
    rw [if_neg hb0]
    simp only [reduceCtorEq, or_self, if_false, ite_false, eq_self_iff_true, if_true, ite_true]
    rw [if_neg hb5]
    rw [if_pos hl]
    exact hok

/-- Witness for C5 with remaining budget 1.5 over a Local and a Premium model. -/
theorem C5_critical_overrides_thresholds_witness :
    (midbudget_ledger.remaining_budget = 3 / 2 ∧
      [llama_model, gpt4_model].filter (fun m => decide (m.type = ModelType.PREMIUM_API)) ≠ [] ∧
      [llama_model, gpt4_model].filter (fun m => decide (m.type = ModelType.LOCAL)) ≠ []) ∧
    (∃ m, route_task midbudget_ledger { simple_task with complexity := TaskComplexity.CRITICAL }
        [llama_model, gpt4_model] = Except.ok m ∧ m.type = ModelType.PREMIUM_API) ∧
    (∃ m, route_task midbudget_ledger { simple_task with complexity := TaskComplexity.COMPLEX }
        [llama_model, gpt4_model] = Except.ok m ∧ m.type = ModelType.LOCAL) := by
  have h1 : midbudget_ledger.remaining_budget = 3 / 2 := by
    norm_num [midbudget_ledger, CostTracking.remaining_budget]
  have h2 : [llama_model, gpt4_model].filter
      (fun m => decide (m.type = ModelType.PREMIUM_API)) ≠ [] := by
    simp [llama_model, gpt4_model]
  have h3 : [llama_model, gpt4_model].filter
      (fun m => decide (m.type = ModelType.LOCAL)) ≠ [] := by
    simp [llama_model, gpt4_model]
  exact ⟨⟨h1, h2, h3⟩, C5_critical_overrides_thresholds midbudget_ledger simple_task
    [llama_model, gpt4_model] h1 h2 h3⟩

/-- C6: with no remaining budget the routing result is never a PremiumRemote
model: for Simple and Medium complexity the selection is drawn from Local and
free FreeRemote models, for Complex and Critical from Local models only,
whatever the registry holds. -/
theorem C6_budget_exhaustion_degradation (ct : CostTracking) (task : Task)
    (available_models : List Model) (hb : ct.remaining_budget ≤ 0) :
    (∀ m, route_task ct task available_models = Except.ok m →
      m.type ≠ ModelType.PREMIUM_API) ∧
    ((task.complexity = TaskComplexity.SIMPLE ∨ task.complexity = TaskComplexity.MEDIUM) →
      ∀ m, route_task ct task available_models = Except.ok m →
        m ∈ available_models.filter (fun m => decide (m.type = ModelType.LOCAL)) ++
            available_models.filter
              (fun m => decide (m.type = ModelType.FREE_API) && m.is_free)) ∧
    ((task.complexity = TaskComplexity.COMPLEX ∨ task.complexity = TaskComplexity.CRITICAL) →
      ∀ m, route_task ct task available_models = Except.ok m →
        m ∈ available_models.filter (fun m => decide (m.type = ModelType.LOCAL))) := by
  by_cases hsm : task.complexity = TaskComplexity.SIMPLE ∨
      task.complexity = TaskComplexity.MEDIUM
  · have hmem : ∀ m, route_task ct task available_models = Except.ok m →
        m ∈ available_models.filter (fun m => decide (m.type = ModelType.LOCAL)) ++
            available_models.filter
              (fun m => decide (m.type = ModelType.FREE_API) && m.is_free) := by
      intro m hok
      simp only [route_task] at hok
      rw [if_pos hb, if_pos hsm] at hok
      exact select_best_model_mem _ _ _ hok
    refine ⟨?_, fun _ => hmem, ?_⟩
    · intro m hok
      rcases List.mem_append.mp (hmem m hok) with hmm | hmm
      · have ht := of_decide_eq_true (List.mem_filter.mp hmm).2
        rw [ht]
        intro hcon
        cases hcon
      · have ht := (List.mem_filter.mp hmm).2
        simp only [Bool.and_eq_true, decide_eq_true_eq] at ht
        rw [ht.1]
        intro hcon
        cases hcon
    · intro hcc
      rcases hsm with hx | hx <;> rcases hcc with hy | hy <;> rw [hx] at hy <;> cases hy
  · have hmem : ∀ m, route_task ct task available_models = Except.ok m →
        m ∈ available_models.filter (fun m => decide (m.type = ModelType.LOCAL)) := by
      intro m hok
      simp only [route_task] at hok
      rw [if_pos hb, if_neg hsm] at hok
      exact select_best_model_mem _ _ _ hok
    refine ⟨?_, fun hcon => absurd hcon hsm, fun _ => hmem⟩
    intro m hok
    have ht := of_decide_eq_true (List.mem_filter.mp (hmem m hok)).2
    rw [ht]
    intro hcon
    cases hcon

/-- Witness for C6 on an exhausted budget, a Complex task and a registry
holding a Premium model next to a Local one. -/
theorem C6_budget_exhaustion_degradation_witness :
    exhausted_ledger.remaining_budget ≤ 0 ∧
    ((∀ m, route_task exhausted_ledger complex_task [llama_model, gpt4_model] = Except.ok m →
      m.type ≠ ModelType.PREMIUM_API) ∧
    ((complex_task.complexity = TaskComplexity.SIMPLE ∨
        complex_task.complexity = TaskComplexity.MEDIUM) →
      ∀ m, route_task exhausted_ledger complex_task [llama_model, gpt4_model] = Except.ok m →
        m ∈ [llama_model, gpt4_model].filter (fun m => decide (m.type = ModelType.LOCAL)) ++
            [llama_model, gpt4_model].filter
              (fun m => decide (m.type = ModelType.FREE_API) && m.is_free)) ∧
    ((complex_task.complexity = TaskComplexity.COMPLEX ∨
        complex_task.complexity = TaskComplexity.CRITICAL) →
      ∀ m, route_task exhausted_ledger complex_task [llama_model, gpt4_model] = Except.ok m →
        m ∈ [llama_model, gpt4_model].filter (fun m => decide (m.type = ModelType.LOCAL)))) := by
  have h1 : exhausted_ledger.remaining_budget ≤ 0 := by
    norm_num [exhausted_ledger, CostTracking.remaining_budget]
  exact ⟨h1, C6_budget_exhaustion_degradation exhausted_ledger complex_task
    [llama_model, gpt4_model] h1⟩

/-- process_task once the router has chosen: the definitional unfolding used
by the dispatch theorems. -/
theorem process_task_eq (env : ReasoningEnv) (ct : CostTracking)
    (available_models : List Model) (task : Task) (selected_model : Model)
    (hroute : route_task ct task available_models = Except.ok selected_model) :
    process_task env ct available_models task =
      (match process_with_model env task selected_model with
       | Except.ok response => (Except.ok { response with processing_time := env.elapsed }, ct)
       | Except.error _ =>
         match get_fallback_model available_models selected_model with
         | some fallback_model =>
           match process_with_model env task fallback_model with
           | Except.ok response =>
             (Except.ok { response with fallback_used := true, processing_time := env.elapsed }, ct)
           | Except.error _ => (Except.ok (failure_response env), ct)
         | none => (Except.ok (failure_response env), ct)) := by
  unfold process_task
  rw [hroute]

/-- C1 (code bug): a dispatch that succeeds leaves the cost-tracking state
untouched, and in general process_task returns its input state unchanged on
every path: no path calls track_usage, so zero record calls happen even for
the attempt that succeeded. -/
theorem C1_dispatch_never_records :
    dispatch_succeeded (process_task ok_env (fresh_period "2024-01" 10) [llama_model]
      simple_task).1 = true ∧
    (process_task ok_env (fresh_period "2024-01" 10) [llama_model] simple_task).2 =
      fresh_period "2024-01" 10 ∧
    (∀ (env : ReasoningEnv) (ct : CostTracking) (available_models : List Model) (task : Task),
      (process_task env ct available_models task).2 = ct) := by
  have hframe : ∀ (env : ReasoningEnv) (ct : CostTracking) (avail : List Model) (t : Task),
      (process_task env ct avail t).2 = ct := by
    intro env ct avail t
    cases hroute : route_task ct t avail with
    | error e => simp [process_task, hroute]
    | ok sel =>
      rw [process_task_eq env ct avail t sel hroute]
      cases process_with_model env t sel with
      | ok r => rfl
      | error e =>
        dsimp only
        cases get_fallback_model avail sel with
        | none => rfl
        | some fb =>
          dsimp only
          cases process_with_model env t fb with
          | ok r => rfl
          | error e2 => rfl
  refine ⟨?_, hframe ok_env _ _ _, hframe⟩
  norm_num [process_task, route_task, select_best_model, code_gen_pool, pick_first_best,
    process_with_model, process_with_ollama, ok_env, fresh_period, simple_task, llama_model,
    CostTracking.remaining_budget, dispatch_succeeded, AIResponse.success]

/-- C4 counterexample: with an empty registry the router's no-model ValueError
propagates out of process_task (route_task is called outside the try block)
instead of being converted into a success=false terminal response. -/
theorem C4_router_failure_propagates :
    (process_task failing_env (fresh_period "2024-01" 10) [] simple_task).1 =
      Except.error "No models available for simple tasks" := by
  norm_num [process_task, route_task, select_best_model, fresh_period, simple_task,
    failing_env, CostTracking.remaining_budget]

/-- C4 (amended): once the router returns a model, process_task never
propagates an exception: it always returns a response; and when the primary
attempt and every available fallback attempt raise, that response is the
terminal failure response, whose success flag is false with cost 0 and zero
tokens. The router's own no-model ValueError, raised outside the try block,
still propagates (see the counterexample). -/
theorem C4_no_unhandled_exception_after_routing (env : ReasoningEnv) (ct : CostTracking)
    (available_models : List Model) (task : Task) (selected_model : Model)
    (hroute : route_task ct task available_models = Except.ok selected_model) :
    isError (process_task env ct available_models task).1 = false ∧
    (isError (process_with_model env task selected_model) = true →
      (∀ fb, get_fallback_model available_models selected_model = some fb →
        isError (process_with_model env task fb) = true) →
      (process_task env ct available_models task).1 = Except.ok (failure_response env) ∧
      (failure_response env).success = false ∧
      (failure_response env).cost = 0 ∧
      (failure_response env).tokens_used = 0) := by
  rw [process_task_eq env ct available_models task selected_model hroute]
  constructor
  · cases process_with_model env task selected_model with
    | ok r => rfl
    | error e =>
      dsimp only
      cases get_fallback_model available_models selected_model with
      | none => rfl
      | some fb =>
        dsimp only
        cases process_with_model env task fb with
        | ok r => rfl
        | error e2 => rfl
  · intro hfail hfb
    have hsucc : (failure_response env).success = false := by
      simp only [AIResponse.success, failure_response, decide_eq_false_iff_not, not_lt]
      norm_num
    refine ⟨?_, hsucc, rfl, rfl⟩
    cases hp : process_with_model env task selected_model with
    | ok r =>
      rw [hp] at hfail
      simp [isError] at hfail
    | error e =>
      dsimp only
      cases hf : get_fallback_model available_models selected_model with
      | none => rfl
      | some fb =>
        dsimp only
        cases hq : process_with_model env task fb with
        | ok r =>
          have hcon := hfb fb hf
          rw [hq] at hcon
          simp [isError] at hcon
        | error e2 => rfl

/-- Witness for the amended C4: a Local-only registry whose Ollama endpoint
times out, so the primary attempt fails, no fallback exists, and the terminal
failure response is returned rather than an exception. -/
theorem C4_no_unhandled_exception_witness :
    route_task (fresh_period "2024-01" 10) simple_task [llama_model] =
      Except.ok llama_model ∧
    (isError (process_task failing_env (fresh_period "2024-01" 10) [llama_model]
        simple_task).1 = false ∧
    (isError (process_with_model failing_env simple_task llama_model) = true →
      (∀ fb, get_fallback_model [llama_model] llama_model = some fb →
        isError (process_with_model failing_env simple_task fb) = true) →
      (process_task failing_env (fresh_period "2024-01" 10) [llama_model] simple_task).1 =
        Except.ok (failure_response failing_env) ∧
      (failure_response failing_env).success = false ∧
      (failure_response failing_env).cost = 0 ∧
      (failure_response failing_env).tokens_used = 0)) := by
  have h : route_task (fresh_period "2024-01" 10) simple_task [llama_model] =
      Except.ok llama_model := by
    norm_num [route_task, select_best_model, code_gen_pool, pick_first_best, fresh_period,
      simple_task, llama_model, CostTracking.remaining_budget]
  exact ⟨h, C4_no_unhandled_exception_after_routing failing_env _ _ _ _ h⟩

/-- C10: every dispatch attempt against a non-Local model fails: the free-API
adapter unconditionally raises NotImplementedError, the premium adapter raises
a missing-key error or NotImplementedError; hence only Local models can
produce a successful response, and when the router's primary choice is
non-Local any response the dispatch returns is marked fallback_used. -/
theorem C10_non_local_attempts_always_fail (env : ReasoningEnv) (task : Task) (model : Model)
    (h : model.type ≠ ModelType.LOCAL) :
    (∃ e, process_with_model env task model = Except.error e) ∧
    (model.type = ModelType.FREE_API →
      process_with_model env task model = Except.error "Free API integration pending") ∧
    (model.type = ModelType.PREMIUM_API →
      process_with_model env task model =
          Except.error ("No API key found for " ++ model.name) ∨
      process_with_model env task model = Except.error "Premium API integration pending") ∧
    (∀ (ct : CostTracking) (available_models : List Model) (r : AIResponse),
      route_task ct task available_models = Except.ok model →
      (process_task env ct available_models task).1 = Except.ok r →
      r.fallback_used = true) := by
  have hfail : ∃ e, process_with_model env task model = Except.error e := by
    unfold process_with_model
    rw [if_neg h]
    by_cases hf : model.type = ModelType.FREE_API
    · rw [if_pos hf]
      exact ⟨_, rfl⟩
    · rw [if_neg hf]
      unfold process_with_premium_api
      cases env.getenv (model.name.toUpper ++ "_API_KEY") with
      | none => exact ⟨_, rfl⟩
      | some k => exact ⟨_, rfl⟩
  refine ⟨hfail, ?_, ?_, ?_⟩
  · intro hf
    unfold process_with_model
    rw [if_neg h, if_pos hf]
    rfl
  · intro hpm
    unfold process_with_model process_with_premium_api
    have hnf : ¬model.type = ModelType.FREE_API := by
      rw [hpm]; intro hcon; cases hcon
    rw [if_neg h, if_neg hnf]
    cases env.getenv (model.name.toUpper ++ "_API_KEY") with
    | none => exact Or.inl rfl
    | some k => exact Or.inr rfl
  · intro ct avail r hroute hok
    rcases hfail with ⟨e, he⟩
    rw [process_task_eq env ct avail task model hroute, he] at hok
    dsimp only at hok
    cases hf2 : get_fallback_model avail model with
    | none =>
      rw [hf2] at hok
      dsimp only at hok
      injection hok with hok
      rw [← hok]
      rfl
    | some fb =>
      rw [hf2] at hok
      dsimp only at hok
      cases hq : process_with_model env task fb with
      | ok resp =>
        rw [hq] at hok
        dsimp only at hok
        injection hok with hok
        rw [← hok]
      | error e2 =>
        rw [hq] at hok
        dsimp only at hok
        injection hok with hok
        rw [← hok]
        rfl

/-- Witness for C10 at the concrete Premium model with no API key configured. -/
theorem C10_non_local_attempts_always_fail_witness :
    gpt4_model.type ≠ ModelType.LOCAL ∧
    ((∃ e, process_with_model failing_env simple_task gpt4_model = Except.error e) ∧
    (gpt4_model.type = ModelType.FREE_API →
      process_with_model failing_env simple_task gpt4_model =
        Except.error "Free API integration pending") ∧
    (gpt4_model.type = ModelType.PREMIUM_API →
      process_with_model failing_env simple_task gpt4_model =
          Except.error ("No API key found for " ++ gpt4_model.name) ∨
      process_with_model failing_env simple_task gpt4_model =
        Except.error "Premium API integration pending") ∧
    (∀ (ct : CostTracking) (available_models : List Model) (r : AIResponse),
      route_task ct simple_task available_models = Except.ok gpt4_model →
      (process_task failing_env ct available_models simple_task).1 = Except.ok r →
      r.fallback_used = true)) := by
  have h : gpt4_model.type ≠ ModelType.LOCAL := by
    simp [gpt4_model]
  exact ⟨h, C10_non_local_attempts_always_fail failing_env simple_task gpt4_model h⟩

end Nova
